import Mathlib

/-!
Verification of the river reverse-proxy core against its specification.

Shallow embedding of the request-processing pipeline of
`src/source/river/src/proxy/` and the listener extraction of
`src/source/river/src/config/kdl/mod.rs`:

* header maps are modelled as ordered lists of (name, value) pairs, with
  names already in the normalized (lowercase) form the `http` crate's
  `HeaderMap` stores them in;
* a compiled regular expression is modelled by the functions the source
  actually invokes on it (`is_match` as a boolean predicate on the text,
  `replace` as a string transformer);
* fallible Rust code returns `Except`, and code that can panic returns
  `RustResult` (`ok` or `panicked`).
-/

namespace River

/-- Result of a Rust computation that may panic (unwrap/expect/assert). -/
inductive RustResult (α : Type) : Type
| ok (val : α)
| panicked (msg : String)
deriving DecidableEq, Repr

--
-- Header maps and the upsert-header / remove-header-key-regex mutators
-- (src/proxy/request_modifiers.rs and src/proxy/response_modifiers.rs:
-- the request- and response-side implementations are textually identical
-- over the header map, so they share one embedding).
--

/-- One header: normalized name and value. -/
abbrev Header := String × String

/-- The header map of a request or response header
(`http::HeaderMap`, ordered, duplicate names allowed for multi-valued
headers). -/
abbrev Headers := List Header

/-- `RequestHeader::remove_header` / `ResponseHeader::remove_header`:
removes every value stored under the given name. -/
def remove_header (k : String) (hs : Headers) : Headers :=
  hs.filter (fun h => decide (h.1 ≠ k))

/-- `UpsertHeader::upstream_request_filter` (request_modifiers.rs:101) and
`UpsertHeader::upstream_response_filter` (response_modifiers.rs:94):
remove any existing header with the key, then append `key: value`. -/
def UpsertHeader.apply (key value : String) (hs : Headers) : Headers :=
  remove_header key hs ++ [(key, value)]

/-- The distinct header names, as iterated by `header.headers.keys()`
(each name once, even when multi-valued). -/
def header_names (hs : Headers) : List String :=
  (hs.map Prod.fst).dedup

/-- `RemoveHeaderKeyRegex::upstream_request_filter`
(request_modifiers.rs:52) and `::upstream_response_filter`
(response_modifiers.rs:47): collect every header name matching the
compiled pattern `p`, then remove each collected name.  `p` is the
`is_match` function of the compiled regex. -/
def RemoveHeaderKeyRegex.apply (p : String → Bool) (hs : Headers) : Headers :=
  let keys := (header_names hs).filter p
  keys.foldl (fun acc k => remove_header k acc) hs

-- Helper lemmas -------------------------------------------------------------

lemma filter_remove_header (k : String) (p : Header → Bool) (hs : Headers) :
    (remove_header k hs).filter p
      = hs.filter (fun h => p h && decide (h.1 ≠ k)) := by
  simp [remove_header, List.filter_filter]

lemma removeAll_eq_filter (keys : List String) (hs : Headers) :
    keys.foldl (fun acc k => remove_header k acc) hs
      = hs.filter (fun h => decide (h.1 ∉ keys)) := by
  induction keys generalizing hs with
  | nil => simp
  | cons k ks ih =>
      rw [List.foldl_cons, ih]
      rw [filter_remove_header]
      apply List.filter_congr
      intro h _
      by_cases hk : h.1 = k
      · simp [hk]
      · by_cases hks : h.1 ∈ ks <;> simp [hk, hks]

/-- C6: after `remove-header-key-regex{p}` runs (either side), the header
map equals the original with every header whose stored name matches `p`
removed: no matching header remains — removal is exhaustive, covering
repeated and multi-valued names — and the non-matching headers are
preserved in their original order. -/
theorem c6_remove_header_key_regex (p : String → Bool) (hs : Headers) :
    RemoveHeaderKeyRegex.apply p hs = hs.filter (fun h => !(p h.1)) := by
  rw [RemoveHeaderKeyRegex.apply, removeAll_eq_filter]
  apply List.filter_congr
  intro h hmem
  have hname : h.1 ∈ hs.map Prod.fst := List.mem_map_of_mem Prod.fst hmem
  by_cases hp : p h.1
  · have : h.1 ∈ (header_names hs).filter p := by
      simp [header_names, List.mem_filter, List.mem_dedup, hname, hp]
    simp [this, hp]
  · have : h.1 ∉ (header_names hs).filter p := by
      simp [List.mem_filter, hp]
    simp [this, hp]

/-- C5: applying `upsert-header{k,v}` (request or response side) yields a
header map whose headers named `k` are exactly the single pair `(k, v)`,
and whose headers with any other name are exactly those of the original
map, in order. -/
theorem c5_upsert_header (k v : String) (hs : Headers) :
    (UpsertHeader.apply k v hs).filter (fun h => decide (h.1 = k)) = [(k, v)] ∧
    (UpsertHeader.apply k v hs).filter (fun h => decide (h.1 ≠ k))
      = hs.filter (fun h => decide (h.1 ≠ k)) := by
  constructor
  · rw [UpsertHeader.apply, List.filter_append, filter_remove_header]
    have : (hs.filter fun h => decide (h.1 = k) && decide (h.1 ≠ k)) = [] := by
      apply List.filter_eq_nil_iff.mpr
      intro h _
      by_cases hk : h.1 = k <;> simp [hk]
    rw [this]
    simp
  · rw [UpsertHeader.apply, List.filter_append, filter_remove_header]
    have h1 : (hs.filter fun h => decide (h.1 ≠ k) && decide (h.1 ≠ k))
        = hs.filter (fun h => decide (h.1 ≠ k)) := by
      apply List.filter_congr
      intro h _
      exact Bool.and_self _
    have h2 : ([(k, v)].filter fun h => decide (h.1 ≠ k)) = [] := by simp
    rw [h1, h2, List.append_nil]

--
-- Client addresses, sessions, and the block-cidr-range request filter
-- (src/proxy/request_filters.rs)
--

/-- An IP address: the `v4`/`v6` numeric value of the address
(`std::net::IpAddr`). -/
inductive IpAddr : Type
| v4 (addr : Nat)
| v6 (addr : Nat)
deriving DecidableEq, Repr

/-- A downstream client address (`pingora` `SocketAddr`): an IP socket or
a Unix-domain socket (whose path may be unnamed). -/
inductive SocketAddr : Type
| Inet (ip : IpAddr) (port : Nat)
| Unix (path : Option String)
deriving DecidableEq, Repr

/-- The part of a downstream `Session` the embedded phases read: the
client address (`client_addr()`, `None` when unknown) and the request
URI path (`req_header().uri.path()`). -/
structure Session : Type where
  client_addr : Option SocketAddr
  path : String
deriving DecidableEq, Repr

/-- A parsed CIDR block (`cidr::IpCidr`): family, network address value,
and prefix length. -/
inductive IpCidr : Type
| v4 (net : Nat) (len : Nat)
| v6 (net : Nat) (len : Nat)
deriving DecidableEq, Repr

/-- `IpCidr::contains`: the address is in the block iff it is of the same
family and agrees with the network address on the first `len` bits. -/
def IpCidr.contains : IpCidr → IpAddr → Bool
  | .v4 net len, .v4 a => decide (a / 2 ^ (32 - len) = net / 2 ^ (32 - len))
  | .v6 net len, .v6 a => decide (a / 2 ^ (128 - len) = net / 2 ^ (128 - len))
  | _, _ => false

/-- Outcome of one request filter: `proceed` is `Ok(false)` (next filter
runs), `respond s` is `respond_error(s)` followed by `Ok(true)` (request
complete). -/
inductive FilterDecision : Type
| proceed
| respond (status : Nat)
deriving DecidableEq, Repr

/-- `CidrRangeFilter::request_filter` (request_filters.rs:50): no client
address known responds 401; a Unix-domain client is not filtered; an IP
client is blocked with 401 iff some configured block contains it. -/
def CidrRangeFilter.request_filter (blocks : List IpCidr) (session : Session) :
    FilterDecision :=
  match session.client_addr with
  | none => .respond 401
  | some (.Unix _) => .proceed
  | some (.Inet ip _port) =>
      if blocks.any (fun b => b.contains ip) then .respond 401 else .proceed

/-- The behaviour C7 asserts, written in the claim's own case order:
UDS continues, unknown address responds 401, an IP inside a configured
block responds 401, any other IP continues. -/
def cidrFilterClaim (blocks : List IpCidr) (session : Session) :
    FilterDecision :=
  match session.client_addr with
  | some (.Unix _) => .proceed
  | none => .respond 401
  | some (.Inet ip _port) =>
      if blocks.any (fun b => b.contains ip) then .respond 401 else .proceed

/-- C7: for every configured block list and every downstream session the
block-cidr-range filter decides exactly as the claim describes: UDS
client continues, unknown client address responds 401 and completes, a
client IP contained in some configured CIDR block responds 401 and
completes, and any other client IP continues. -/
theorem c7_cidr_filter (blocks : List IpCidr) (session : Session) :
    CidrRangeFilter.request_filter blocks session
      = cidrFilterClaim blocks session := by
  rcases session with ⟨addr, path⟩
  rcases addr with _ | sa
  · rfl
  · rcases sa with ⟨ip, port⟩ | p <;> rfl

--
-- Rate-limit key derivation (src/proxy/rate_limiting.rs:50 and
-- src/proxy/rate_limiting/multi.rs:63)
--

/-- `RequestKeyKind` (rate_limiting.rs:10).  The compiled `Regex` of the
`Uri` kind is embedded as its `is_match` predicate on the path. -/
inductive RequestKeyKind : Type
| SourceIp
| DestIp
| Uri (pattern : String → Bool)

/-- `RequestKey` (rate_limiting.rs:31). -/
inductive RequestKey : Type
| Source (ip : IpAddr)
| Dest (ip : IpAddr)
| Uri (path : String)
deriving DecidableEq, Repr

/-- `RaterInstance::get_key` (rate_limiting.rs:56).  For `SourceIp` the
source calls `client_addr().unwrap()`: an unknown client address panics
(modelled by `RustResult.panicked`); a Unix-domain client yields `None`;
an IP client yields its address.  `Uri` yields the path iff the pattern
matches it, `DestIp` always yields `None`. -/
def RaterInstance.get_key (kind : RequestKeyKind) (session : Session) :
    RustResult (Option RequestKey) :=
  match kind with
  | .SourceIp =>
      match session.client_addr with
      | none => .panicked "called Option::unwrap() on a None value"
      | some (.Inet ip _port) => .ok (some (.Source ip))
      | some (.Unix _) => .ok none
  | .DestIp => .ok none
  | .Uri pattern =>
      if pattern session.path then .ok (some (.Uri session.path)) else .ok none

/-- `MultiRequestKeyKind` (multi.rs:45). -/
inductive MultiRequestKeyKind : Type
| SourceIp
| Uri (pattern : String → Bool)

/-- `MultiRequestKey` (multi.rs:51). -/
inductive MultiRequestKey : Type
| Source (ip : IpAddr)
| Uri (path : String)
deriving DecidableEq, Repr

/-- `MultiRaterInstance::get_key` (multi.rs:76).  Same derivation, except
`client_addr()?` makes an unknown client address yield `None` instead of
panicking. -/
def MultiRaterInstance.get_key (kind : MultiRequestKeyKind)
    (session : Session) : Option MultiRequestKey :=
  match kind with
  | .SourceIp =>
      match session.client_addr with
      | none => none
      | some (.Inet ip _port) => some (.Source ip)
      | some (.Unix _) => none
  | .Uri pattern =>
      if pattern session.path then some (.Uri session.path) else none

/-- C3 counterexample: under a source-ip rule, on a session with no known
client address, `RaterInstance::get_key` panics (the `unwrap` of
`client_addr()`) instead of returning `None` — key derivation is not
total and can panic. -/
theorem c3_get_key_counterexample :
    RaterInstance.get_key .SourceIp { client_addr := none, path := "/" }
        = .panicked "called Option::unwrap() on a None value" ∧
    RaterInstance.get_key .SourceIp { client_addr := none, path := "/" }
        ≠ .ok none := by
  exact ⟨rfl, by decide⟩

/-- C3 amended: under a source-ip rule, `MultiRaterInstance::get_key`
(multi.rs) is total — `None` for a Unix-domain client and for an unknown
client address, the source IP otherwise — while `RaterInstance::get_key`
(rate_limiting.rs) returns `None` for a Unix-domain client but panics
when no client address is known. -/
theorem c3_get_key_amended (p : String) (udsPath : Option String)
    (ip : IpAddr) (port : Nat) :
    MultiRaterInstance.get_key .SourceIp { client_addr := none, path := p }
        = none ∧
    MultiRaterInstance.get_key .SourceIp
        { client_addr := some (.Unix udsPath), path := p } = none ∧
    MultiRaterInstance.get_key .SourceIp
        { client_addr := some (.Inet ip port), path := p }
        = some (.Source ip) ∧
    RaterInstance.get_key .SourceIp
        { client_addr := some (.Unix udsPath), path := p } = .ok none ∧
    RaterInstance.get_key .SourceIp
        { client_addr := some (.Inet ip port), path := p }
        = .ok (some (.Source ip)) ∧
    RaterInstance.get_key .SourceIp { client_addr := none, path := p }
        = .panicked "called Option::unwrap() on a None value" := by
  exact ⟨rfl, rfl, rfl, rfl, rfl, rfl⟩

--
-- Listener extraction (src/config/kdl/mod.rs:590, extract_listener)
--

/-- TLS material of a TCP listener. -/
structure TlsConfig : Type where
  cert_path : String
  key_path : String
deriving DecidableEq, Repr

/-- `ListenerKind` of the internal config. -/
inductive ListenerKind : Type
| Tcp (addr : String) (tls : Option TlsConfig) (offer_h2 : Bool)
| Uds (path : String)
deriving DecidableEq, Repr

/-- The TCP branch of `extract_listener` (kdl/mod.rs:601-647): the match
over the optional `cert-path`, `key-path` and `offer-h2` arguments. -/
def extract_listener_tcp (addr : String) (cert_path key_path : Option String)
    (offer_h2 : Option Bool) : Except String ListenerKind :=
  match cert_path, key_path, offer_h2 with
  | none, none, none => .ok (.Tcp addr none false)
  | none, some _, _ | some _, none, _ =>
      .error "cert-path and key-path must either BOTH be present, or NEITHER should be present"
  | none, none, some _ =>
      .error "offer-h2 requires TLS, specify cert-path and key-path"
  | some cpath, some kpath, offer_h2 =>
      .ok (.Tcp addr (some { cert_path := cpath, key_path := kpath })
        (offer_h2.getD true))

/-- C10: a TCP listener giving `offer-h2` (either value) without
`cert-path`/`key-path` is rejected at construction, and a TCP listener
giving both `cert-path` and `key-path` but no `offer-h2` defaults
`offer_h2` to `true`. -/
theorem c10_listener_h2 (addr : String) (b : Bool) (cpath kpath : String) :
    extract_listener_tcp addr none none (some b)
        = .error "offer-h2 requires TLS, specify cert-path and key-path" ∧
    extract_listener_tcp addr (some cpath) (some kpath) none
        = .ok (.Tcp addr
            (some { cert_path := cpath, key_path := kpath }) true) := by
  exact ⟨rfl, rfl⟩

--
-- url-rewrite (src/proxy/request_modifiers.rs:118, PathRewrite)
--

/-- A request URI as the embedded phases see it: the path and the
optional query string (`http::Uri`, origin form). -/
structure Uri : Type where
  path : String
  query : Option String
deriving DecidableEq, Repr

/-- A `url-rewrite{regex, rewrite}` modifier.  The compiled regex is
embedded as the two functions the source invokes on it:
`is_match` (`regex.is_match(path)`) and `replace`
(`regex.replace(path, rewrite-template)`, first match, numbered
captures). -/
structure PathRewrite : Type where
  is_match : String → Bool
  replace : String → String

/-- `http::uri::PathAndQuery::from_str`: everything before the first
`?` is the path, everything after it is the query (absent when the
string has no `?`).  Byte-validity of the characters is not modelled
(an invalid byte makes the source unwrap panic). -/
def parse_path_and_query (s : List Char) : Uri :=
  match s with
  | [] => { path := "", query := none }
  | c :: rest =>
      if c = '?' then { path := "", query := some (String.mk rest) }
      else
        let u := parse_path_and_query rest
        { u with path := String.mk (c :: u.path.data) }

/-- `PathRewrite::upstream_request_filter` (request_modifiers.rs:139):
if the regex does not match the path the request header is untouched;
if it matches, the URI is replaced by one rebuilt from just the
replacement string parsed as path-and-query — the original query string
is not carried over. -/
def PathRewrite.upstream_request_filter (m : PathRewrite) (u : Uri) : Uri :=
  if m.is_match u.path then parse_path_and_query (m.replace u.path).data
  else u

/-- True iff the string contains a `?`. -/
def has_question_mark (s : String) : Bool :=
  s.data.any (fun c => decide (c = '?'))

lemma parse_no_question_mark (s : List Char)
    (h : ∀ c ∈ s, c ≠ '?') :
    parse_path_and_query s = { path := String.mk s, query := none } := by
  induction s with
  | nil => rfl
  | cons c rest ih =>
      have hc : c ≠ '?' := h c (List.mem_cons_self c rest)
      have hrest : ∀ x ∈ rest, x ≠ '?' := fun x hx => h x (List.mem_cons_of_mem c hx)
      simp [parse_path_and_query, hc, ih hrest]

/-- C2 counterexample: a url-rewrite whose regex matches `/api/x` and
rewrites it to `/x` (e.g. regex `^/api/(.*)$`, template `/$1`) applied
to the URI `/api/x?a=1` yields `/x` with no query string at all: the
original query `a=1` is dropped, not preserved. -/
theorem c2_url_rewrite_counterexample :
    PathRewrite.upstream_request_filter
        { is_match := fun p => decide (p = "/api/x"),
          replace := fun _ => "/x" }
        { path := "/api/x", query := some "a=1" }
      = { path := "/x", query := none } ∧
    ({ path := "/x", query := none } : Uri)
      ≠ { path := "/x", query := some "a=1" } := by
  decide

/-- C2 amended: if the regex does not match the path, the URI is left
byte-identical; if it matches, the new URI is rebuilt from the regex
replacement of the path alone, so (whenever the replacement contains no
question mark) the new path equals the replacement and the query string
is dropped — not preserved. -/
theorem c2_url_rewrite_amended (m : PathRewrite) (u : Uri) :
    (m.is_match u.path = false → m.upstream_request_filter u = u) ∧
    (m.is_match u.path = true →
      has_question_mark (m.replace u.path) = false →
      m.upstream_request_filter u
        = { path := m.replace u.path, query := none }) := by
  constructor
  · intro h
    simp [PathRewrite.upstream_request_filter, h]
  · intro h hq
    have hnoq : ∀ c ∈ (m.replace u.path).data, c ≠ '?' := by
      intro c hc hceq
      have : (m.replace u.path).data.any (fun x => decide (x = '?')) = true :=
        List.any_eq_true.mpr ⟨c, hc, by simp [hceq]⟩
      rw [has_question_mark, this] at hq
      exact absurd hq (by simp)
    simp [PathRewrite.upstream_request_filter, h,
      parse_no_question_mark _ hnoq]

/-- Witness for the amended C2 theorem at concrete inputs: a non-matching
rewrite leaves `/keep?q=1` untouched, and a matching rewrite of
`/api/x?a=1` to `/x` drops the query. -/
theorem c2_url_rewrite_amended_witness :
    PathRewrite.upstream_request_filter
        { is_match := fun _ => false, replace := fun _ => "" }
        { path := "/keep", query := some "q=1" }
      = { path := "/keep", query := some "q=1" } ∧
    PathRewrite.upstream_request_filter
        { is_match := fun _ => true, replace := fun _ => "/x" }
        { path := "/api/x", query := some "a=1" }
      = { path := "/x", query := none } := by
  exact ⟨(c2_url_rewrite_amended
      { is_match := fun _ => false, replace := fun _ => "" }
      { path := "/keep", query := some "q=1" }).1 rfl,
    (c2_url_rewrite_amended
      { is_match := fun _ => true, replace := fun _ => "/x" }
      { path := "/api/x", query := some "a=1" }).2 rfl (by decide)⟩

--
-- The request_filter rate-limiting stage
-- (src/proxy/mod.rs:278-341 and src/proxy/rate_limiting.rs:282,
-- Ticket::wait)
--

/-- mod.rs:138-142: the service's rate-limiting timeout is the
configured `timeout_ms`, defaulting to one second when absent. -/
def rate_limiting_timeout_millis (timeout_ms : Option Nat) : Nat :=
  timeout_ms.getD 1000

/-- Timed model of the rate-limit block of `request_filter`
(mod.rs:284-328).  One `ticket.wait()` future is spawned per applicable
rule; `Ticket::wait` (rate_limiting.rs:282) never returns `Err` — it
resolves once the leaky bucket grants a token.  `delays` lists each
spawned wait's resolution time in milliseconds (`0` when the bucket has
a token immediately available); the `JoinSet` completes when the slowest
wait resolves, and `tokio::time::timeout` rejects with 429 exactly when
that exceeds the timeout.  Returns `true` iff the request is rejected
with 429. -/
def rate_limit_stage_rejects (delays : List Nat) (timeout_millis : Nat) :
    Bool :=
  decide (delays.foldr max 0 > timeout_millis)

/-- The dispatcher the claim describes: an eager non-blocking `try_now`
per ticket, rejecting with 429 immediately iff any ticket is Declined
(no immediately-available token, i.e. a positive wait), with the
timeout having no effect. -/
def rate_limit_stage_rejects_claim (delays : List Nat)
    (_timeout_millis : Nat) : Bool :=
  delays.any (fun d => decide (0 < d))

/-- C1 counterexample: with one applicable rule whose bucket is empty
(token available only after 500 ms) and the default inputs, the claimed
eager-try-now dispatcher rejects with 429, but the code admits the
request (the wait finishes inside the 1000 ms timeout); and the
configured `timeout_ms` does change the code's outcome (a 1500 ms wait
is rejected under `timeout_ms = 1000` but admitted under
`timeout_ms = 2000`). -/
theorem c1_rate_limit_counterexample :
    rate_limit_stage_rejects_claim [500]
        (rate_limiting_timeout_millis (some 1000)) = true ∧
    rate_limit_stage_rejects [500]
        (rate_limiting_timeout_millis (some 1000)) = false ∧
    rate_limit_stage_rejects [1500]
        (rate_limiting_timeout_millis (some 1000)) = true ∧
    rate_limit_stage_rejects [1500]
        (rate_limiting_timeout_millis (some 2000)) = false := by
  decide

/-- C1 amended: the dispatcher spawns `ticket.wait()` for every
applicable rule and awaits them all; the request is rejected with 429
exactly when not every wait resolves within the rate-limiting timeout
(`timeout_ms`, default 1000 ms) — there is no non-blocking `try_now`
check, and `timeout_ms` bounds the waiting and decides the outcome. -/
lemma foldr_max_le_all (l : List Nat) (t : Nat) :
    decide (l.foldr max 0 ≤ t) = l.all (fun d => decide (d ≤ t)) := by
  induction l with
  | nil => simp
  | cons d ds ih =>
      rw [List.foldr_cons, List.all_cons, ← ih, ← Bool.decide_and]
      exact decide_eq_decide.mpr Nat.max_le

theorem c1_rate_limit_amended (delays : List Nat) (timeout_ms : Option Nat) :
    rate_limit_stage_rejects delays (rate_limiting_timeout_millis timeout_ms)
      = !(delays.all
          (fun d => decide (d ≤ rate_limiting_timeout_millis timeout_ms))) := by
  generalize rate_limiting_timeout_millis timeout_ms = t
  rw [rate_limit_stage_rejects, ← foldr_max_le_all]
  calc decide (delays.foldr max 0 > t)
      = decide (¬delays.foldr max 0 ≤ t) :=
        decide_eq_decide.mpr (Iff.symm Nat.not_le)
    _ = !decide (delays.foldr max 0 ≤ t) := by rw [decide_not]

--
-- The upstream_peer phase and the selector scratch buffer
-- (src/proxy/mod.rs:347-368 and src/proxy/request_selector.rs)
--

/-- `RiverContext` (mod.rs:259): the per-request scratch pad; its
`selector_buf` holds bytes a selector formatted for the load balancer
key. -/
structure RiverContext : Type where
  selector_buf : List Char
deriving DecidableEq, Repr

/-- An upstream peer (`HttpPeer`), identified by its address. -/
structure HttpPeer : Type where
  address : String
deriving DecidableEq, Repr

/-- A load-balancer backend: its address and the `HttpPeer` stored in its
metadata extension (`backend.ext.get::<HttpPeer>()`, absent when the
metadata was never inserted). -/
structure Backend : Type where
  addr : String
  ext : Option HttpPeer
deriving DecidableEq, Repr

/-- A selector (`RequestSelector`, request_selector.rs:16): reads the
context and session, may write into `selector_buf`, and returns the key
bytes together with the (possibly updated) context. -/
abbrev RequestSelector := RiverContext → Session → (List Char × RiverContext)

/-- `null_selector` (request_selector.rs:21): empty key, no writes. -/
def null_selector : RequestSelector := fun ctx _ses => ([], ctx)

/-- `uri_path_selector` (request_selector.rs:28): the request path,
straight from the session, no writes. -/
def uri_path_selector : RequestSelector := fun ctx ses => (ses.path.data, ctx)

/-- `source_addr_and_uri_path_selector` (request_selector.rs:35):
appends `"{client_addr:?}:{path}"` to the scratch buffer and returns the
whole buffer.  The Rust `Debug` rendering of the client address is
represented by the argument `fmtAddr`. -/
def source_addr_and_uri_path_selector
    (fmtAddr : Option SocketAddr → List Char) : RequestSelector :=
  fun ctx ses =>
    let buf := ctx.selector_buf ++ fmtAddr ses.client_addr ++ [':'] ++ ses.path.data
    (buf, { ctx with selector_buf := buf })

/-- The parts of `RiverProxyService` that `upstream_peer` reads: the
configured selector and the balancer's `select` function
(`load_balancer.select(key, 256)`). -/
structure ServiceView : Type where
  request_selector : RequestSelector
  lb_select : List Char → Nat → Option Backend

/-- `RiverProxyService::upstream_peer` (mod.rs:347): compute the selector
key, select a backend, clear the selector buffer, then fail if no
backend was selected or its peer metadata is missing, else return the
peer.  Returns the phase result together with the final context. -/
def upstream_peer (svc : ServiceView) (session : Session)
    (ctx : RiverContext) : Except String HttpPeer × RiverContext :=
  let kc := svc.request_selector ctx session
  let backend := svc.lb_select kc.1 256
  let ctx2 : RiverContext := { kc.2 with selector_buf := [] }
  match backend with
  | none => (.error "Unable to determine backend", ctx2)
  | some b =>
      match b.ext with
      | some p => (.ok p, ctx2)
      | none => (.error "Fatal: Missing selected backend metadata", ctx2)

/-- C8: whatever the configured selector wrote and whichever of the three
exits is taken — peer returned, no backend selected, or backend
metadata missing — the context's selector buffer is empty when
`upstream_peer` returns, so selector key bytes never leak into a later
request reusing the context. -/
theorem c8_selector_buf_cleared (svc : ServiceView) (session : Session)
    (ctx : RiverContext) :
    ((upstream_peer svc session ctx).2).selector_buf = [] := by
  rcases h : svc.lb_select (svc.request_selector ctx session).1 256 with _ | b
  · simp [upstream_peer, h]
  · rcases hext : b.ext with _ | p <;> simp [upstream_peer, h, hext]

--
-- The Rater constructor and its buckets
-- (src/proxy/rate_limiting.rs:165-246 and the textually identical
-- src/proxy/rate_limiting/multi.rs:163-244)
--

/-- `RaterConfig` (rate_limiting.rs:81) / `MultiRaterConfig`
(multi.rs:26). -/
structure RaterConfig : Type where
  threads : Nat
  max_buckets : Nat
  max_tokens_per_bucket : Nat
  refill_interval_millis : Nat
  refill_qty : Nat
deriving DecidableEq, Repr

/-- A leaky bucket as `Rater::new_rate_limiter` builds it
(`RateLimiter::builder()`): initial and max tokens, refill interval,
refill quantity, fairness. -/
structure Bucket : Type where
  initial : Nat
  max : Nat
  interval_millis : Nat
  refill : Nat
  fair : Bool
deriving DecidableEq, Repr

/-- The state of a `Rater<Key>` (rate_limiting.rs:146): the bucket cache
and the three bucket parameters.  The ARC cache is modelled as an
association list (capacity/eviction behaviour does not affect which
bucket parameters are ever used). -/
structure RaterState (Key : Type) : Type where
  cache : List (Key × Bucket)
  max_tokens_per_bucket : Nat
  refill_interval_millis : Nat
  refill_qty : Nat

/-- `Rater::new` (rate_limiting.rs:172 / multi.rs:170): the constructor
is total — it never rejects a configuration — and stores
`refill_qty.min(max_tokens_per_bucket)` as the effective refill
quantity. -/
def Rater.new (Key : Type) (config : RaterConfig) : RaterState Key :=
  { cache := []
    max_tokens_per_bucket := config.max_tokens_per_bucket
    refill_interval_millis := config.refill_interval_millis
    refill_qty := min config.refill_qty config.max_tokens_per_bucket }

/-- `Rater::new_rate_limiter` (rate_limiting.rs:237 / multi.rs:235). -/
def RaterState.new_rate_limiter {Key : Type} (r : RaterState Key) : Bucket :=
  { initial := r.max_tokens_per_bucket
    max := r.max_tokens_per_bucket
    interval_millis := r.refill_interval_millis
    refill := r.refill_qty
    fair := true }

/-- `Rater::get_ticket` (rate_limiting.rs:217 / multi.rs:215): cache hit
returns the cached bucket; cache miss builds a fresh bucket, inserts it,
and returns it. -/
def RaterState.get_ticket {Key : Type} [DecidableEq Key]
    (r : RaterState Key) (key : Key) : Bucket × RaterState Key :=
  match r.cache.lookup key with
  | some b => (b, r)
  | none =>
      let b := r.new_rate_limiter
      (b, { r with cache := (key, b) :: r.cache })

/-- Run a sequence of `get_ticket` calls against a rater. -/
def RaterState.run_get_tickets {Key : Type} [DecidableEq Key]
    (r : RaterState Key) (keys : List Key) : RaterState Key :=
  keys.foldl (fun s k => (s.get_ticket k).2) r

lemma run_get_tickets_invariant {Key : Type} [DecidableEq Key]
    (keys : List Key) (r : RaterState Key)
    (hq : r.refill_qty ≤ r.max_tokens_per_bucket)
    (hc : ∀ kb ∈ r.cache, kb.2.refill ≤ kb.2.max) :
    (r.run_get_tickets keys).refill_qty
        ≤ (r.run_get_tickets keys).max_tokens_per_bucket ∧
    ∀ kb ∈ (r.run_get_tickets keys).cache, kb.2.refill ≤ kb.2.max := by
  induction keys generalizing r with
  | nil => exact ⟨hq, hc⟩
  | cons k ks ih =>
      rw [RaterState.run_get_tickets, List.foldl_cons]
      rcases hlk : r.cache.lookup k with _ | b
      · refine ih _ ?_ ?_
        · simpa [RaterState.get_ticket, hlk] using hq
        · intro kb hkb
          simp only [RaterState.get_ticket, hlk] at hkb
          rcases List.mem_cons.mp hkb with h | h
          · subst h
            simpa [RaterState.new_rate_limiter] using hq
          · exact hc kb h
      · refine ih _ ?_ ?_
        · simpa [RaterState.get_ticket, hlk] using hq
        · intro kb hkb
          simp only [RaterState.get_ticket, hlk] at hkb
          exact hc kb hkb

/-- C9: `Rater::new` never rejects a configuration with
`refill_qty > max_tokens_per_bucket`; it stores the clamped quantity
`min refill_qty max_tokens_per_bucket`, and after any sequence of
`get_ticket` calls every bucket it has constructed satisfies
refill quantity ≤ max tokens per bucket. -/
theorem c9_rater_clamps_refill {Key : Type} [DecidableEq Key]
    (config : RaterConfig) (keys : List Key) :
    (Rater.new Key config).refill_qty
        = min config.refill_qty config.max_tokens_per_bucket ∧
    (((Rater.new Key config).run_get_tickets keys).cache.all
        (fun kb => decide (kb.2.refill ≤ kb.2.max))) = true := by
  refine ⟨rfl, ?_⟩
  have h := run_get_tickets_invariant keys (Rater.new Key config)
    (Nat.min_le_right _ _) (by intro kb hkb; simp [Rater.new] at hkb)
  exact List.all_eq_true.mpr (fun kb hkb => decide_eq_true (h.2 kb hkb))

--
-- Modifier construction from settings maps
-- (src/proxy/mod.rs:406-429 helpers; src/proxy/request_modifiers.rs,
-- src/proxy/response_modifiers.rs, src/proxy/request_filters.rs
-- constructors)
--

/-- A filter's settings: the `BTreeMap<String, String>` left after the
`kind` key was removed, as an association list with distinct keys. -/
abbrev Settings := List (String × String)

/-- `BTreeMap::remove`: take out the entry with the given key, returning
its value and the remaining map. -/
def map_remove (key : String) : Settings → Option (String × Settings)
  | [] => none
  | (k, v) :: rest =>
      if k = key then some (v, rest)
      else
        match map_remove key rest with
        | some (v2, rest2) => some (v2, (k, v) :: rest2)
        | none => none

/-- `extract_val` (mod.rs:409): remove the key's value, error when the
key is absent. -/
def extract_val (key : String) (map : Settings) :
    Except String (String × Settings) :=
  match map_remove key map with
  | some (v, rest) => .ok (v, rest)
  | none => .error "Missing configuration field!"

/-- `ensure_empty` (mod.rs:420): reject remaining (unknown) keys. -/
def ensure_empty (map : Settings) : Except String Unit :=
  if map.isEmpty then .ok () else .error "Extra settings found!"

/-- `UpsertHeader::from_settings` (request_modifiers.rs:94 and
response_modifiers.rs:87): consume `key` and `value`; the remaining map
is dropped without an `ensure_empty` check. -/
def UpsertHeader.from_settings (settings : Settings) :
    Except String (String × String) := do
  let (key, settings) ← extract_val "key" settings
  let (value, _settings) ← extract_val "value" settings
  return (key, value)

/-- `RemoveHeaderKeyRegex::from_settings` (request_modifiers.rs:37 and
response_modifiers.rs:33): consume `pattern`, compile it, then
`ensure_empty` rejects any remaining key.  Compilation of the pattern is
not modelled (a bad pattern is a config error before the emptiness
check); the returned value is the pattern source. -/
def RemoveHeaderKeyRegex.from_settings (settings : Settings) :
    Except String String := do
  let (mat, settings) ← extract_val "pattern" settings
  ensure_empty settings
  return mat

/-- `CidrRangeFilter::from_settings` (request_filters.rs:25): consume
`addrs`, split it on commas, trim and parse each range (any parse
failure is a config error); the remaining map is dropped without an
`ensure_empty` check.  `parse_cidr` stands for the external
`str::parse::<IpCidr>`. -/
def CidrRangeFilter.from_settings (parse_cidr : String → Option IpCidr)
    (settings : Settings) : Except String (List IpCidr) := do
  let (mat, _settings) ← extract_val "addrs" settings
  (mat.splitOn ",").mapM (fun addr =>
    match parse_cidr addr.trim with
    | some a => Except.ok a
    | none => Except.error "Invalid configuration")

/-- `PathRewrite::from_settings` (request_modifiers.rs:125): consume
`regex` and `rewrite`; a bad regex panics (`expect`), and the remaining
map is dropped without an `ensure_empty` check.  `regex_ok` stands for
`Regex::from_str` succeeding; the returned config carries the two raw
strings. -/
def PathRewrite.from_settings (regex_ok : String → Bool)
    (settings : Settings) : RustResult (Except String (String × String)) :=
  match extract_val "regex" settings with
  | .error e => .ok (.error e)
  | .ok (reg, settings) =>
      if regex_ok reg then
        match extract_val "rewrite" settings with
        | .error e => .ok (.error e)
        | .ok (rew, _settings) => .ok (.ok (reg, rew))
      else .panicked "Unable to parse regex for rewrite."

/-- C4 counterexample: `UpsertHeader::from_settings` succeeds on a
settings map that still carries the unknown key `x-unknown` after `key`
and `value` are consumed — the extra key is not rejected with a
configuration error. -/
theorem c4_extra_keys_counterexample :
    UpsertHeader.from_settings
        [("key", "k"), ("value", "v"), ("x-unknown", "1")]
      = .ok ("k", "v") := by
  rfl

/-- C4 amended: construction consumes the kind-specific keys, but only
remove-header-key-regex rejects remaining extra keys via `ensure_empty`;
upsert-header, block-cidr-range and url-rewrite silently ignore any
extra keys. -/
theorem c4_extra_keys_amended (k v a reg rew pat : String)
    (extras rest : Settings) (e : String × String)
    (parse_cidr : String → Option IpCidr) :
    UpsertHeader.from_settings (("key", k) :: ("value", v) :: extras)
        = .ok (k, v) ∧
    CidrRangeFilter.from_settings parse_cidr (("addrs", a) :: extras)
        = CidrRangeFilter.from_settings parse_cidr [("addrs", a)] ∧
    PathRewrite.from_settings (fun _ => true)
        (("regex", reg) :: ("rewrite", rew) :: extras)
        = .ok (.ok (reg, rew)) ∧
    RemoveHeaderKeyRegex.from_settings [("pattern", pat)] = .ok pat ∧
    RemoveHeaderKeyRegex.from_settings (("pattern", pat) :: e :: rest)
        = .error "Extra settings found!" := by
  refine ⟨?_, ?_, ?_, rfl, ?_⟩
  · simp [UpsertHeader.from_settings, extract_val, map_remove, Bind.bind,
      Except.bind, Pure.pure, Except.pure]
  · simp [CidrRangeFilter.from_settings, extract_val, map_remove, Bind.bind,
      Except.bind]
  · simp [PathRewrite.from_settings, extract_val, map_remove]
  · simp [RemoveHeaderKeyRegex.from_settings, extract_val, map_remove,
      ensure_empty, Bind.bind, Except.bind]

end River
